import Mathlib

/-
Verification development for the accessvault inventory engine.

Shallow embedding conventions:
  * JavaScript strings are embedded as lists of characters (JStr).
  * JavaScript numbers appearing in inventory metrics are embedded as
    rationals (the values handled here are exact decimals); fields typed
    number-or-null-or-undefined become Option values.
  * Frontend event handlers are embedded as pure state-transition
    functions over records mirroring the React component state.
  * The backend service is not part of the source tree; definitions whose
    doc comment starts with Modelled from the spec embed the behaviour
    the specification ascribes to the missing backend.
-/

/-- JavaScript strings, embedded as lists of characters. -/
abbrev JStr := List Char

/-- Characters removed by JavaScript String.prototype.trim. -/
def jsWhitespace (c : Char) : Bool :=
  c == ' ' || c == '\t' || c == '\n' || c == '\r'

/-- Embedding of JavaScript String.prototype.trim. -/
def trimChars (s : JStr) : JStr :=
  ((s.dropWhile jsWhitespace).reverse.dropWhile jsWhitespace).reverse

/-- Embedding of JavaScript String.prototype.split with separator a comma. -/
def splitComma : JStr → List JStr
  | [] => [[]]
  | c :: cs =>
    if c = ',' then [] :: splitComma cs
    else
      match splitComma cs with
      | [] => [[c]]
      | r :: rs => (c :: r) :: rs

/-- Embedding of the JavaScript object-spread update m[k] = v (insertion
order preserved, an existing key is overwritten in place). -/
def mapSet (k : JStr) (v : α) : List (JStr × α) → List (JStr × α)
  | [] => [(k, v)]
  | p :: rest => if p.1 = k then (k, v) :: rest else p :: mapSet k v rest

/-- Lookup in an association list embedded from a JavaScript object. -/
def lookupAssoc (k : JStr) : List (JStr × α) → Option α
  | [] => none
  | p :: rest => if p.1 = k then some p.2 else lookupAssoc k rest

/-- JavaScript truthiness test on an optional number: null, undefined and 0
are falsy. -/
def jsFalsyNum : Option ℚ → Bool
  | none => true
  | some q => q == 0

/-- JavaScript Math.round (round half towards positive infinity). -/
def jsRound (q : ℚ) : ℤ := ⌊q + 1 / 2⌋

/-- JavaScript Math.ceil on a non-negative integer division. -/
def ceilDiv (a b : ℕ) : ℕ := (a + b - 1) / b

/-! Canonical enum types, from frontend/src/types (part_000 and part_001). -/

inductive InventorySourceType
  | esxi
  | vcenter
deriving DecidableEq

inductive InventoryEndpointStatus
  | never
  | ok
  | error
deriving DecidableEq

inductive InventoryHostConnectionState
  | connected
  | disconnected
  | maintenance
deriving DecidableEq

inductive InventoryPowerState
  | powered_on
  | powered_off
  | suspended
  | unknown
deriving DecidableEq

inductive AciNodeRole
  | leaf
  | spine
  | controller
  | unspecified
deriving DecidableEq

/-- InventoryEndpoint interface (part_000 lines 54-71). -/
structure InventoryEndpoint where
  id : JStr
  name : JStr
  address : JStr
  port : ℚ
  source_type : InventorySourceType
  username : JStr
  verify_ssl : Bool
  poll_interval_seconds : ℚ
  description : Option JStr
  tags : List JStr
  last_polled_at : Option JStr
  last_poll_status : InventoryEndpointStatus
  last_error_message : Option JStr
  has_credentials : Bool
  created_at : JStr
  updated_at : JStr
deriving DecidableEq

/-- InventoryHost interface (part_000 lines 73-91). -/
structure InventoryHost where
  id : JStr
  endpoint_id : JStr
  endpoint_name : JStr
  name : JStr
  cluster : Option JStr
  hardware_model : Option JStr
  connection_state : InventoryHostConnectionState
  power_state : InventoryPowerState
  cpu_cores : Option ℚ
  cpu_usage_mhz : Option ℚ
  memory_total_mb : Option ℚ
  memory_usage_mb : Option ℚ
  datastore_total_gb : Option ℚ
  datastore_free_gb : Option ℚ
  uptime_seconds : Option ℚ
  last_seen_at : Option JStr
  updated_at : JStr
deriving DecidableEq

/-- InventoryVirtualMachine interface (part_000 lines 93-114). -/
structure InventoryVirtualMachine where
  id : JStr
  endpoint_id : JStr
  endpoint_name : JStr
  host_id : Option JStr
  host_name : Option JStr
  name : JStr
  guest_os : Option JStr
  power_state : InventoryPowerState
  cpu_count : Option ℚ
  memory_mb : Option ℚ
  cpu_usage_mhz : Option ℚ
  memory_usage_mb : Option ℚ
  provisioned_storage_gb : Option ℚ
  used_storage_gb : Option ℚ
  ip_address : Option JStr
  datastores : List JStr
  networks : List JStr
  tools_status : Option JStr
  last_seen_at : Option JStr
  updated_at : JStr
deriving DecidableEq

/-- InventoryDatastore interface (part_000 lines 116-126). -/
structure InventoryDatastore where
  id : JStr
  endpoint_id : JStr
  endpoint_name : JStr
  name : JStr
  type : Option JStr
  capacity_gb : Option ℚ
  free_gb : Option ℚ
  last_seen_at : Option JStr
  updated_at : JStr
deriving DecidableEq

/-- InventoryNetwork interface (part_000 lines 128-135). -/
structure InventoryNetwork where
  id : JStr
  endpoint_id : JStr
  endpoint_name : JStr
  name : JStr
  last_seen_at : Option JStr
  updated_at : JStr
deriving DecidableEq

/-- InventoryEndpointValidationResult interface (part_000 lines 137-145). -/
structure InventoryEndpointValidationResult where
  reachable : Bool
  host_count : ℕ
  virtual_machine_count : ℕ
  datastore_count : ℕ
  network_count : ℕ
  message : Option JStr
  collected_at : Option JStr
deriving DecidableEq

/-- AciFabricNode interface (part_001 lines 154-179); raw_attributes is a
string-keyed record whose values are embedded as plain strings. -/
structure AciFabricNode where
  id : JStr
  distinguished_name : JStr
  name : JStr
  role : AciNodeRole
  node_id : JStr
  address : Option JStr
  serial : Option JStr
  model : Option JStr
  version : Option JStr
  vendor : Option JStr
  node_type : Option JStr
  apic_type : Option JStr
  fabric_state : Option JStr
  admin_state : Option JStr
  delayed_heartbeat : Bool
  pod : Option JStr
  fabric_job_id : Option JStr
  fabric_name : Option JStr
  fabric_ip : Option JStr
  last_state_change_at : Option JStr
  last_modified_at : Option JStr
  raw_attributes : List (JStr × JStr)
  created_at : JStr
  updated_at : JStr
deriving DecidableEq

/-- AciFabricNodePage envelope (part_001 lines 181-188). -/
structure AciFabricNodePage where
  items : List AciFabricNode
  total : ℕ
  page : ℕ
  page_size : ℕ
  has_next : Bool
  has_prev : Bool
deriving DecidableEq

/-- AciFabricSummary interface (part_001 lines 213-222). -/
structure AciFabricSummary where
  total : ℕ
  leaf_count : ℕ
  spine_count : ℕ
  controller_count : ℕ
  unspecified_count : ℕ
  delayed_heartbeat : ℕ
  by_fabric_state : List (JStr × ℕ)
  by_version : List (JStr × ℕ)
deriving DecidableEq

/-! Derived utilization percentages, from the InventoryPage component
(part_002 lines 369-411). -/

/-- calculateDatastorePercent (part_002 lines 389-396). -/
def calculateDatastorePercent (datastore : InventoryDatastore) : Option ℚ :=
  if jsFalsyNum datastore.capacity_gb || decide (datastore.capacity_gb.getD 0 ≤ 0) then
    none
  else
    let free := datastore.free_gb.getD 0
    let used := max 0 (datastore.capacity_gb.getD 0 - free)
    some (used / datastore.capacity_gb.getD 0 * 100)

/-- calculateCpuPercent (part_002 lines 398-404). -/
def calculateCpuPercent (host : InventoryHost) : Option ℚ :=
  if jsFalsyNum host.cpu_cores || decide (host.cpu_cores.getD 0 ≤ 0)
      || jsFalsyNum host.cpu_usage_mhz then
    none
  else
    let theoreticalMhz := host.cpu_cores.getD 0 * 2500
    some (host.cpu_usage_mhz.getD 0 / theoreticalMhz * 100)

/-- calculateMemoryPercent (part_002 lines 406-411). -/
def calculateMemoryPercent (host : InventoryHost) : Option ℚ :=
  if jsFalsyNum host.memory_total_mb || decide (host.memory_total_mb.getD 0 ≤ 0)
      || jsFalsyNum host.memory_usage_mb then
    none
  else
    some (host.memory_usage_mb.getD 0 / host.memory_total_mb.getD 0 * 100)

/-- Numeric value displayed by formatPercent (part_002 lines 369-374 and
1031-1036): Math.min(100, Math.max(0, Math.round(value))); none stands for
the dash placeholder shown for null, undefined and NaN. -/
def displayedPercentValue (value : Option ℚ) : Option ℤ :=
  match value with
  | none => none
  | some q => some (min 100 (max 0 (jsRound q)))

/-- formatPercent (part_002 lines 369-374): the rendered string. -/
def formatPercent (value : Option ℚ) : JStr :=
  match displayedPercentValue value with
  | none => '-' :: '-' :: []
  | some n => (toString n).toList ++ ['%']

/-! Tag parsing, shared by sanitizedPayload (InventoryAdminPage.tsx lines
136-149) and handleUpdateEndpoint (lines 343-346): input.split(",")
.map(trim).filter(length > 0). -/

/-- Tag list parsed from a comma-separated input field. -/
def parseTags (s : JStr) : List JStr :=
  ((splitComma s).map trimChars).filter (fun tag => decide (0 < tag.length))

/-- Embedding of tags.join(", ") (InventoryAdminPage.tsx line 300). -/
def joinTags : List JStr → JStr
  | [] => []
  | [t] => t
  | t :: u :: ts => t ++ ',' :: ' ' :: joinTags (u :: ts)

/-! The collector onboarding form state and payloads, from
frontend/src/services/inventory.ts and InventoryAdminPage.tsx. -/

/-- CreateInventoryEndpointPayload (services/inventory.ts lines 14-25);
optional keys are Option, and description may also be explicitly null. -/
structure CreateInventoryEndpointPayload where
  name : JStr
  address : JStr
  port : Option ℚ
  source_type : Option InventorySourceType
  username : JStr
  password : JStr
  verify_ssl : Option Bool
  poll_interval_seconds : Option ℚ
  description : Option (Option JStr)
  tags : Option (List JStr)
deriving DecidableEq

/-- UpdateInventoryEndpointPayload (services/inventory.ts lines 27-29):
every field of the create payload made optional; this is also the type of
the edit-form state in InventoryAdminPage.tsx. -/
structure UpdateInventoryEndpointPayload where
  name : Option JStr
  address : Option JStr
  port : Option ℚ
  source_type : Option InventorySourceType
  username : Option JStr
  password : Option JStr
  verify_ssl : Option Bool
  poll_interval_seconds : Option ℚ
  description : Option (Option JStr)
  tags : Option (List JStr)
deriving DecidableEq

/-- initialForm (InventoryAdminPage.tsx lines 25-36). -/
def initialForm : CreateInventoryEndpointPayload :=
  { name := []
    address := []
    port := some 443
    source_type := some InventorySourceType.esxi
    username := []
    password := []
    verify_ssl := some false
    poll_interval_seconds := some 300
    description := some (some [])
    tags := some [] }

/-- sanitizedPayload (InventoryAdminPage.tsx lines 136-149). -/
def sanitizedPayload (form : CreateInventoryEndpointPayload) (tagsInput : JStr) :
    CreateInventoryEndpointPayload :=
  let trimmedTags := parseTags tagsInput
  { form with
    description :=
      match form.description with
      | some (some d) =>
        let t := trimChars d
        if t = [] then none else some (some t)
      | _ => none
    port := some (form.port.getD 443)
    tags := some trimmedTags
    poll_interval_seconds := some (form.poll_interval_seconds.getD 300) }

/-- openEditEndpoint form initialization (InventoryAdminPage.tsx lines
286-302): every field copied from the endpoint, password preset empty. -/
def openEditForm (endpoint : InventoryEndpoint) : UpdateInventoryEndpointPayload :=
  { name := some endpoint.name
    address := some endpoint.address
    port := some endpoint.port
    source_type := some endpoint.source_type
    username := some endpoint.username
    verify_ssl := some endpoint.verify_ssl
    poll_interval_seconds := some endpoint.poll_interval_seconds
    description := some (some (endpoint.description.getD []))
    tags := some endpoint.tags
    password := some [] }

/-- PATCH payload built by handleUpdateEndpoint (InventoryAdminPage.tsx
lines 343-360): tags always re-parsed from the tags input, description
trimmed with empty collapsing to null, and a password key that is present
but trims to the empty string deleted from the payload. -/
def buildUpdatePayload (editForm : UpdateInventoryEndpointPayload)
    (editTagsInput : JStr) : UpdateInventoryEndpointPayload :=
  let tags := parseTags editTagsInput
  let payload := { editForm with tags := some tags }
  let payload :=
    match payload.description with
    | none => payload
    | some d =>
      let trimmed := trimChars (d.getD [])
      { payload with description := some (if trimmed = [] then none else some trimmed) }
  match payload.password with
  | some p => if trimChars p = [] then { payload with password := none } else payload
  | none => payload

/-! Admin page handlers (InventoryAdminPage.tsx), embedded as pure
state-transition functions. -/

/-- Per-endpoint action panel state (InventoryAdminPage.tsx lines 64-76). -/
structure EndpointActionState where
  testingId : Option JStr
  syncingId : Option JStr
  summaries : List (JStr × InventoryEndpointValidationResult)
  errors : List (JStr × JStr)
deriving DecidableEq

/-- initialActionState (InventoryAdminPage.tsx lines 71-76). -/
def initialActionState : EndpointActionState :=
  { testingId := none, syncingId := none, summaries := [], errors := [] }

/-- Failure summary built by handleValidate and handleRevalidateLast on a
rejected request (InventoryAdminPage.tsx lines 440-448). -/
def validationFailure (msg : JStr) : InventoryEndpointValidationResult :=
  { reachable := false
    host_count := 0
    virtual_machine_count := 0
    datastore_count := 0
    network_count := 0
    message := some msg
    collected_at := none }

/-- Validation summary stored by handleValidate (InventoryAdminPage.tsx
lines 430-455): the service response on success, the failure record
carrying the error message verbatim on a rejected request. -/
def handleValidateResult (res : Except JStr InventoryEndpointValidationResult) :
    InventoryEndpointValidationResult :=
  match res with
  | Except.ok r => r
  | Except.error e => validationFailure e

/-- Fallback text used by handleTest when the error message is falsy
(InventoryAdminPage.tsx line 526). -/
def unableToTestMsg : JStr := "Unable to test endpoint".toList

/-- handleTest on a rejected request (InventoryAdminPage.tsx lines
513-528): first marks the endpoint as testing and clears its error entry,
then stores the error message, an empty message being replaced by the
fallback text through the JavaScript or-operator. -/
def handleTestErr (epId : JStr) (errMsg : JStr) (st : EndpointActionState) :
    EndpointActionState :=
  let st1 := { st with testingId := some epId, errors := mapSet epId [] st.errors }
  { st1 with
    testingId := none
    errors := mapSet epId (if errMsg = [] then unableToTestMsg else errMsg) st1.errors }

/-- handleTest on a fulfilled request (InventoryAdminPage.tsx lines
513-521): the summary is stored under the endpoint id. -/
def handleTestOk (epId : JStr) (result : InventoryEndpointValidationResult)
    (st : EndpointActionState) : EndpointActionState :=
  let st1 := { st with testingId := some epId, errors := mapSet epId [] st.errors }
  { st1 with testingId := none, summaries := mapSet epId result st1.summaries }

/-- Onboarding form slice of the admin page state (InventoryAdminPage.tsx
lines 104-114). -/
structure AdminFormState where
  endpoints : List InventoryEndpoint
  form : CreateInventoryEndpointPayload
  tagsInput : JStr
  formError : Option JStr
  formSuccess : Option JStr
  isCreating : Bool
deriving DecidableEq

/-- Error text set by handleCreate when a required field is empty
(InventoryAdminPage.tsx line 488). -/
def requiredFieldsMsg : JStr := "Name, address, username, and password are required".toList

/-- Synchronous part of handleCreate (InventoryAdminPage.tsx lines
486-511), up to the network call: either the guard rejects the payload and
only formError changes, or the creation request is issued. -/
def handleCreate (st : AdminFormState) :
    AdminFormState × Option CreateInventoryEndpointPayload :=
  let p := sanitizedPayload st.form st.tagsInput
  if p.name = [] ∨ p.address = [] ∨ p.username = [] ∨ p.password = [] then
    ({ st with formError := some requiredFieldsMsg }, none)
  else
    ({ st with isCreating := true, formError := none, formSuccess := none }, some p)

/-- Draft payload persisted to localStorage (InventoryAdminPage.tsx lines
193-197 and 278-282): the form with the password blanked, plus the raw
tags input. -/
structure DraftPayload where
  form : CreateInventoryEndpointPayload
  tagsInput : JStr
deriving DecidableEq

/-- Draft written by the auto-save effect (InventoryAdminPage.tsx lines
186-198). -/
def autoSaveDraft (form : CreateInventoryEndpointPayload) (tagsInput : JStr) :
    DraftPayload :=
  { form := { form with password := [] }, tagsInput := tagsInput }

/-- Draft written by handleSaveDraft (InventoryAdminPage.tsx lines
274-284). -/
def saveDraft (form : CreateInventoryEndpointPayload) (tagsInput : JStr) :
    DraftPayload :=
  { form := { form with password := [] }, tagsInput := tagsInput }

/-- Partial form recovered from a stored draft
(Partial of the create payload, InventoryAdminPage.tsx lines 167-170). -/
structure PartialCreateForm where
  name : Option JStr
  address : Option JStr
  port : Option ℚ
  source_type : Option InventorySourceType
  username : Option JStr
  password : Option JStr
  verify_ssl : Option Bool
  poll_interval_seconds : Option ℚ
  description : Option (Option JStr)
  tags : Option (List JStr)
deriving DecidableEq

/-- Form state produced by the draft-loading effect (InventoryAdminPage.tsx
line 172): the previous form spread with the parsed draft, password forced
back to the empty string. -/
def loadDraftForm (prev : CreateInventoryEndpointPayload)
    (parsed : PartialCreateForm) : CreateInventoryEndpointPayload :=
  { name := parsed.name.getD prev.name
    address := parsed.address.getD prev.address
    port := match parsed.port with | some v => some v | none => prev.port
    source_type := match parsed.source_type with | some v => some v | none => prev.source_type
    username := parsed.username.getD prev.username
    password := []
    verify_ssl := match parsed.verify_ssl with | some v => some v | none => prev.verify_ssl
    poll_interval_seconds :=
      match parsed.poll_interval_seconds with
      | some v => some v
      | none => prev.poll_interval_seconds
    description := match parsed.description with | some v => some v | none => prev.description
    tags := match parsed.tags with | some v => some v | none => prev.tags }

/-- Keys of an endpoint record in the GET /inventory/endpoints list
response, as declared by the InventoryEndpoint interface (part_000 lines
54-71). -/
def inventoryEndpointResponseKeys : List String :=
  ["id", "name", "address", "port", "source_type", "username", "verify_ssl",
   "poll_interval_seconds", "description", "tags", "last_polled_at",
   "last_poll_status", "last_error_message", "has_credentials",
   "created_at", "updated_at"]

/-- uniqueHosts (part_002 lines 1228-1237, VirtualMachinesPage): host
filter options built from the host rows, then from each virtual machine taking its
own host_id and host_name when both are truthy — so a dangling host
reference still yields an entry. -/
def uniqueHosts (hosts : List InventoryHost)
    (filteredVirtualMachines : List InventoryVirtualMachine) :
    List (JStr × JStr) :=
  let m := hosts.foldl (fun m h => mapSet h.id h.name m) ([] : List (JStr × JStr))
  filteredVirtualMachines.foldl
    (fun m vm =>
      match vm.host_id, vm.host_name with
      | some hid, some hname =>
        if hid = [] ∨ hname = [] then m else mapSet hid hname m
      | _, _ => m)
    m

/-! The ACI fabric inventory page (part_003). -/

/-- Component state of AciInventoryPage (part_003 lines 58-69). -/
structure AciPageState where
  nodes : List AciFabricNode
  summary : Option AciFabricSummary
  page : ℕ
  pageSize : ℕ
  total : ℕ
  hasPrev : Bool
  hasNext : Bool
  error : Option JStr
deriving DecidableEq

/-- Last valid page computed by loadData (part_003 line 85). -/
def lastPageFor (totalCount pageSize : ℕ) : ℕ :=
  if 0 < totalCount then max 1 (ceilDiv totalCount pageSize) else 1

/-- loadData on a fulfilled request (part_003 lines 71-117): an
out-of-range page is reset to the last page without storing the response
items; an empty total away from page one clears the list and resets to
page one; otherwise the response is committed. -/
def loadDataOk (st : AciPageState) (summaryResponse : AciFabricSummary)
    (nodesResponse : AciFabricNodePage) : AciPageState :=
  let totalCount := nodesResponse.total
  let lastPage := lastPageFor totalCount st.pageSize
  if 0 < totalCount ∧ lastPage < st.page then
    { st with summary := some summaryResponse, page := lastPage, error := none }
  else if totalCount = 0 ∧ st.page ≠ 1 then
    { st with
      summary := some summaryResponse
      nodes := []
      total := 0
      hasPrev := false
      hasNext := false
      page := 1
      error := none }
  else
    { st with
      summary := some summaryResponse
      nodes := nodesResponse.items
      total := totalCount
      hasPrev := nodesResponse.has_prev
      hasNext := nodesResponse.has_next
      error := none }

/-! The backend service is not part of the source tree; the following
definitions embed the behaviour the specification ascribes to it. -/

/-- Modelled from the spec: the GET /aci/fabric/nodes handler is missing
from the source tree; per sections 4.5 and 6, it applies the role/search
filters and then offset-based pagination over the filtered ordering,
returning the AciFabricNodePage envelope with total the filtered count. -/
def paginateFabricNodes (filtered : List AciFabricNode) (page page_size : ℕ) :
    AciFabricNodePage :=
  { items := (filtered.drop ((page - 1) * page_size)).take page_size
    total := filtered.length
    page := page
    page_size := page_size
    has_next := decide (page * page_size < filtered.length)
    has_prev := decide (1 < page) }

/-- Modelled from the spec: the stored endpoint row held by the missing
backend, pairing the registry record with the Vault-held encrypted secret
(section 4.1); has_credentials on the record reflects secret presence. -/
structure StoredEndpoint where
  record : InventoryEndpoint
  secret : Option JStr
deriving DecidableEq

/-- Modelled from the spec: the PATCH /endpoints handler is missing from
the source tree; per sections 4.1, 4.5 and 6 it applies the present
payload fields, leaves absent fields untouched, and an omitted secret
leaves the existing encrypted value untouched while a present one is
rotated through the Vault encryption (passed in as a function). -/
def applyEndpointUpdate (encrypt : JStr → JStr) (ep : StoredEndpoint)
    (payload : UpdateInventoryEndpointPayload) : StoredEndpoint :=
  let secret :=
    match payload.password with
    | none => ep.secret
    | some p => some (encrypt p)
  { record :=
      { ep.record with
        name := payload.name.getD ep.record.name
        address := payload.address.getD ep.record.address
        port := payload.port.getD ep.record.port
        source_type := payload.source_type.getD ep.record.source_type
        username := payload.username.getD ep.record.username
        verify_ssl := payload.verify_ssl.getD ep.record.verify_ssl
        poll_interval_seconds :=
          payload.poll_interval_seconds.getD ep.record.poll_interval_seconds
        description :=
          match payload.description with
          | none => ep.record.description
          | some d => d
        tags := payload.tags.getD ep.record.tags
        has_credentials := secret.isSome }
    secret := secret }

/-- Modelled from the spec: the family-specific raw snapshot returned by an
adapter fetchInventory call (section 4.2), carrying the fetched entities
by name for the virtualization family. -/
structure RawSnapshot where
  raw_hosts : List JStr
  raw_vms : List JStr
  raw_datastores : List JStr
  raw_networks : List JStr
deriving DecidableEq

/-- Modelled from the spec: the persisted state layout of section 6 — one
Endpoint table plus one table per canonical entity kind — read by the
query endpoints. -/
structure InventoryState where
  endpoints : List StoredEndpoint
  hosts : List InventoryHost
  virtual_machines : List InventoryVirtualMachine
  datastores : List InventoryDatastore
  networks : List InventoryNetwork
deriving DecidableEq

/-- Modelled from the spec: the lightweight Normalizer summarization pass
run by validate (section 4.4), producing the per-entity counts. -/
def summarizeSnapshot (snap : RawSnapshot) (collectedAt : JStr) :
    InventoryEndpointValidationResult :=
  { reachable := true
    host_count := snap.raw_hosts.length
    virtual_machine_count := snap.raw_vms.length
    datastore_count := snap.raw_datastores.length
    network_count := snap.raw_networks.length
    message := none
    collected_at := some collectedAt }

/-- Modelled from the spec: the POST /inventory/endpoints/validate handler
is missing from the source tree; per sections 4.4 and 6 it runs an adapter
fetchInventory call and a summarization pass and explicitly skips
persistence, returning the reachability summary and leaving the endpoint
table and every canonical entity table as they were. -/
def validateEndpoint (st : InventoryState)
    (fetchResult : Except JStr RawSnapshot) (now : JStr) :
    InventoryState × InventoryEndpointValidationResult :=
  match fetchResult with
  | Except.ok snap => (st, summarizeSnapshot snap now)
  | Except.error msg => (st, validationFailure msg)

/-- Modelled from the spec: the raw virtual-machine row inside a
virtualization RawSnapshot, with the host relationship carried by natural
key (section 4.3). -/
structure RawVm where
  natural_key : JStr
  host_ref : Option JStr
  host_ref_name : Option JStr
deriving DecidableEq

/-- Modelled from the spec: the persisted virtual-machine row as the Diff
Engine sees it (section 4.3), reduced to the fields the relationship
policy concerns. -/
structure VmRow where
  natural_key : JStr
  host_id : Option JStr
  host_name : Option JStr
  last_seen_at : ℕ
deriving DecidableEq

/-- Modelled from the spec: staleness is a computed watermark check,
now minus last_seen_at beyond the grace window (section 9). -/
def vmIsStale (now grace : ℕ) (row : VmRow) : Bool :=
  decide (grace < now - row.last_seen_at)

/-- Modelled from the spec: the Normalizer reconcile step over the
virtual-machine table (section 4.3); a re-observed row takes the
host reference of its own snapshot row verbatim — host presence is never consulted,
so a dangling reference is kept, not nulled — an unobserved row is left
untouched, and a first sighting is inserted. -/
def reconcileVms (now : ℕ) (prev : List VmRow) (snapshot : List RawVm) :
    List VmRow :=
  let updated := prev.map (fun row =>
    match snapshot.find? (fun raw => raw.natural_key == row.natural_key) with
    | some raw =>
      { row with
        host_id := raw.host_ref
        host_name := raw.host_ref_name
        last_seen_at := now }
    | none => row)
  let fresh := (snapshot.filter
      (fun raw => !(prev.any (fun row => row.natural_key == raw.natural_key)))).map
    (fun raw =>
      { natural_key := raw.natural_key
        host_id := raw.host_ref
        host_name := raw.host_ref_name
        last_seen_at := now })
  updated ++ fresh

/-! Concrete fixtures used by instance scenarios, counterexamples and
witnesses. -/

/-- Fabric node fixture indexed by its position in the filtered ordering. -/
def mkAciNode (i : ℕ) : AciFabricNode :=
  { id := (toString i).toList
    distinguished_name := []
    name := (toString i).toList
    role := AciNodeRole.leaf
    node_id := (toString i).toList
    address := none
    serial := none
    model := none
    version := none
    vendor := none
    node_type := none
    apic_type := none
    fabric_state := none
    admin_state := none
    delayed_heartbeat := false
    pod := none
    fabric_job_id := none
    fabric_name := none
    fabric_ip := none
    last_state_change_at := none
    last_modified_at := none
    raw_attributes := []
    created_at := []
    updated_at := [] }

/-- Filtered fabric inventory of 235 nodes for the pagination scenario. -/
def nodes235 : List AciFabricNode := (List.range 235).map mkAciNode

/-- Host fixture whose CPU counter is a known zero while the core count is
known and positive. -/
def hostCpuIdle : InventoryHost :=
  { id := ['h']
    endpoint_id := ['e']
    endpoint_name := ['e']
    name := ['h']
    cluster := none
    hardware_model := none
    connection_state := InventoryHostConnectionState.connected
    power_state := InventoryPowerState.powered_on
    cpu_cores := some 4
    cpu_usage_mhz := some 0
    memory_total_mb := some 1024
    memory_usage_mb := some 512
    datastore_total_gb := none
    datastore_free_gb := none
    uptime_seconds := none
    last_seen_at := none
    updated_at := [] }

/-- Endpoint fixture with tags a and b. -/
def endpointAB : InventoryEndpoint :=
  { id := ['1']
    name := ['n']
    address := ['a']
    port := 443
    source_type := InventorySourceType.esxi
    username := ['u']
    verify_ssl := false
    poll_interval_seconds := 300
    description := none
    tags := [['a'], ['b']]
    last_polled_at := none
    last_poll_status := InventoryEndpointStatus.never
    last_error_message := none
    has_credentials := true
    created_at := []
    updated_at := [] }

/-- Stored counterpart of the endpoint fixture, holding a secret. -/
def storedAB : StoredEndpoint :=
  { record := endpointAB, secret := some ['s'] }

/-- Virtual machine fixture whose host reference points at a host row that
is absent from the host list. -/
def vmDangling : InventoryVirtualMachine :=
  { id := ['v']
    endpoint_id := ['e']
    endpoint_name := ['e']
    host_id := some ['h', '9']
    host_name := some ['g', 'o', 'n', 'e']
    name := ['v']
    guest_os := none
    power_state := InventoryPowerState.powered_on
    cpu_count := none
    memory_mb := none
    cpu_usage_mhz := none
    memory_usage_mb := none
    provisioned_storage_gb := none
    used_storage_gb := none
    ip_address := none
    datastores := []
    networks := []
    tools_status := none
    last_seen_at := none
    updated_at := [] }

/-- Admin form state with the pristine initial form (all required fields
still empty). -/
def stEmpty : AdminFormState :=
  { endpoints := []
    form := initialForm
    tagsInput := []
    formError := none
    formSuccess := none
    isCreating := false }

/-- Host fixture with known positive CPU counters. -/
def hostBusy : InventoryHost :=
  { hostCpuIdle with cpu_usage_mhz := some 1000 }

/-- Datastore fixture at one quarter capacity. -/
def datastoreQuarter : InventoryDatastore :=
  { id := ['d']
    endpoint_id := ['e']
    endpoint_name := ['e']
    name := ['d']
    type := none
    capacity_gb := some 100
    free_gb := some 75
    last_seen_at := none
    updated_at := [] }

/-- Persisted virtual-machine row fixture. -/
def vmRow0 : VmRow :=
  { natural_key := ['v']
    host_id := some ['h', '1']
    host_name := some ['o', 'l', 'd']
    last_seen_at := 0 }

/-- Raw snapshot row re-observing the fixture with a dangling host
reference. -/
def rawVm0 : RawVm :=
  { natural_key := ['v']
    host_ref := some ['h', '9']
    host_ref_name := some ['g', 'o', 'n', 'e'] }

/-- Summary fixture for load responses. -/
def summary0 : AciFabricSummary :=
  { total := 235
    leaf_count := 235
    spine_count := 0
    controller_count := 0
    unspecified_count := 0
    delayed_heartbeat := 0
    by_fabric_state := []
    by_version := [] }

/-- ACI page state requesting page 3 at size 100. -/
def stAci : AciPageState :=
  { nodes := []
    summary := none
    page := 3
    pageSize := 100
    total := 235
    hasPrev := false
    hasNext := false
    error := none }

/-- Server page response for the 235-node scenario at page 3, size 100. -/
def resp235 : AciFabricNodePage := paginateFabricNodes nodes235 3 100

/-! Helper lemmas. -/

theorem lookupAssoc_mapSet_self (k : JStr) (v : α) (m : List (JStr × α)) :
    lookupAssoc k (mapSet k v m) = some v := by
  induction m with
  | nil => simp [mapSet, lookupAssoc]
  | cons p rest ih =>
    by_cases h : p.1 = k
    · simp [mapSet, h, lookupAssoc]
    · simp [mapSet, h, lookupAssoc, ih]

theorem lookupAssoc_mapSet_other (k k' : JStr) (v : α) (m : List (JStr × α))
    (h : k' ≠ k) : lookupAssoc k' (mapSet k v m) = lookupAssoc k' m := by
  induction m with
  | nil => simp [mapSet, lookupAssoc, Ne.symm h]
  | cons p rest ih =>
    by_cases hp : p.1 = k
    · simp [mapSet, hp, lookupAssoc, Ne.symm h]
    · simp [mapSet, hp, lookupAssoc, ih]

theorem lookupAssoc_mapSet_isSome (k k' : JStr) (v : α) (m : List (JStr × α))
    (h : (lookupAssoc k' m).isSome) :
    (lookupAssoc k' (mapSet k v m)).isSome := by
  by_cases hk : k' = k
  · subst hk; simp [lookupAssoc_mapSet_self]
  · rwa [lookupAssoc_mapSet_other k k' v m hk]

theorem splitComma_ne_nil (s : JStr) : splitComma s ≠ [] := by
  induction s with
  | nil => simp [splitComma]
  | cons c cs ih =>
    by_cases hc : c = ','
    · simp [splitComma, hc]
    · simp only [splitComma, if_neg hc]
      rcases hsp : splitComma cs with _ | ⟨r, rs⟩
      · simp
      · simp

theorem splitComma_no_comma (s : JStr) (h : ',' ∉ s) : splitComma s = [s] := by
  induction s with
  | nil => rfl
  | cons c cs ih =>
    have hc : ¬ c = ',' := fun hh => h (by simp [hh])
    have hcs : ',' ∉ cs := fun hh => h (by simp [hh])
    simp only [splitComma, if_neg hc, ih hcs]

theorem splitComma_append (t rest : JStr) (h : ',' ∉ t) :
    splitComma (t ++ ',' :: rest) = t :: splitComma rest := by
  induction t with
  | nil => simp [splitComma]
  | cons c t ih =>
    have hc : ¬ c = ',' := fun hh => h (by simp [hh])
    have ht : ',' ∉ t := fun hh => h (by simp [hh])
    simp only [List.cons_append, splitComma, if_neg hc]
    rw [List.append_eq, ih ht]

theorem trimChars_cons_space (s : JStr) : trimChars (' ' :: s) = trimChars s := by
  simp [trimChars, List.dropWhile_cons, jsWhitespace]

theorem parseTags_cons_space (s : JStr) : parseTags (' ' :: s) = parseTags s := by
  rcases hsp : splitComma s with _ | ⟨r, rs⟩
  · exact absurd hsp (splitComma_ne_nil s)
  · have hstep : splitComma (' ' :: s) = (' ' :: r) :: rs := by
      simp only [splitComma, if_neg (by decide : ¬ (' ' = ','))]
      rw [hsp]
    simp [parseTags, hstep, hsp, trimChars_cons_space]

theorem parseTags_append (t rest : JStr) (h : ',' ∉ t) :
    parseTags (t ++ ',' :: rest) =
      (if 0 < (trimChars t).length then [trimChars t] else []) ++ parseTags rest := by
  simp only [parseTags, splitComma_append t rest h, List.map_cons, List.filter_cons]
  by_cases hl : 0 < (trimChars t).length
  · simp [hl]
  · simp [hl]

theorem parseTags_joinTags (ts : List JStr)
    (h : ∀ t ∈ ts, t ≠ [] ∧ ',' ∉ t ∧ trimChars t = t) :
    parseTags (joinTags ts) = ts := by
  induction ts with
  | nil => simp [joinTags, parseTags, splitComma, trimChars]
  | cons t ts ih =>
    obtain ⟨hne, hnc, htr⟩ := h t (by simp)
    cases ts with
    | nil =>
      simp [joinTags, parseTags, splitComma_no_comma t hnc, htr,
        List.length_pos, hne]
    | cons u ts2 =>
      have hrest : ∀ x ∈ u :: ts2, x ≠ [] ∧ ',' ∉ x ∧ trimChars x = x :=
        fun x hx => h x (List.mem_cons_of_mem t hx)
      have hjoin : joinTags (t :: u :: ts2) = t ++ ',' :: ' ' :: joinTags (u :: ts2) := rfl
      rw [hjoin, parseTags_append t _ hnc, htr,
        if_pos (List.length_pos.mpr hne), parseTags_cons_space, ih hrest]
      rfl

/-! Claim theorems. -/

/-- C3: validate never persists — for every connection-parameter payload,
any number of immediately successive validate calls never creates an
endpoint row and leaves the stored endpoints, hosts, virtual machines,
datastores and networks identical; validate only returns the
reachability/counts summary. -/
theorem validate_never_persists :
    ∀ (st : InventoryState) (calls : List (Except JStr RawSnapshot × JStr)),
      calls.foldl (fun s c => (validateEndpoint s c.1 c.2).1) st = st ∧
      ∀ (r : Except JStr RawSnapshot) (now : JStr),
        (validateEndpoint st r now).1.endpoints = st.endpoints ∧
        (validateEndpoint st r now).1.hosts = st.hosts ∧
        (validateEndpoint st r now).1.virtual_machines = st.virtual_machines ∧
        (validateEndpoint st r now).1.datastores = st.datastores ∧
        (validateEndpoint st r now).1.networks = st.networks := by
  intro st calls
  constructor
  · induction calls generalizing st with
    | nil => rfl
    | cons c cs ih =>
      have hstep : (validateEndpoint st c.1 c.2).1 = st := by
        cases c.1 <;> rfl
      rw [List.foldl_cons, hstep, ih]
  · intro r now
    cases r <;> exact ⟨rfl, rfl, rfl, rfl, rfl⟩

/-- C8: no plaintext secret in a list response or client-side
serialization — the endpoint list record carries has_credentials and no
password or secret key, and every locally stored onboarding draft has the
password blanked on auto-save, explicit save and load. -/
theorem no_secret_serialized :
    (∀ (form : CreateInventoryEndpointPayload) (tagsInput : JStr),
        (autoSaveDraft form tagsInput).form.password = [] ∧
        (saveDraft form tagsInput).form.password = []) ∧
    (∀ (prev : CreateInventoryEndpointPayload) (parsed : PartialCreateForm),
        (loadDraftForm prev parsed).password = []) ∧
    "password" ∉ inventoryEndpointResponseKeys ∧
    "secret" ∉ inventoryEndpointResponseKeys ∧
    "has_credentials" ∈ inventoryEndpointResponseKeys := by
  exact ⟨fun f t => ⟨rfl, rfl⟩, fun p q => rfl, by decide, by decide, by decide⟩

/-- C9: handleCreate issues the creation request iff all of name, address,
username and password in the sanitized payload are non-empty; when any of
them is empty it performs no network call, leaves the endpoint list and
form contents unchanged, and sets the form error to exactly the required
fields message. -/
theorem create_requires_fields :
    ∀ st : AdminFormState,
      ((handleCreate st).2.isSome ↔
        (sanitizedPayload st.form st.tagsInput).name ≠ [] ∧
        (sanitizedPayload st.form st.tagsInput).address ≠ [] ∧
        (sanitizedPayload st.form st.tagsInput).username ≠ [] ∧
        (sanitizedPayload st.form st.tagsInput).password ≠ []) ∧
      (((sanitizedPayload st.form st.tagsInput).name = [] ∨
        (sanitizedPayload st.form st.tagsInput).address = [] ∨
        (sanitizedPayload st.form st.tagsInput).username = [] ∨
        (sanitizedPayload st.form st.tagsInput).password = []) →
        (handleCreate st).2 = none ∧
        (handleCreate st).1.endpoints = st.endpoints ∧
        (handleCreate st).1.form = st.form ∧
        (handleCreate st).1.tagsInput = st.tagsInput ∧
        (handleCreate st).1.formSuccess = st.formSuccess ∧
        (handleCreate st).1.formError = some requiredFieldsMsg) := by
  intro st
  by_cases h : (sanitizedPayload st.form st.tagsInput).name = [] ∨
      (sanitizedPayload st.form st.tagsInput).address = [] ∨
      (sanitizedPayload st.form st.tagsInput).username = [] ∨
      (sanitizedPayload st.form st.tagsInput).password = []
  · have hc : handleCreate st = ({ st with formError := some requiredFieldsMsg }, none) := by
      simp only [handleCreate, if_pos h]
    rw [hc]
    refine ⟨?_, fun _ => ⟨rfl, rfl, rfl, rfl, rfl, rfl⟩⟩
    simp only [Option.isSome_none, Bool.false_eq_true, false_iff]
    tauto
  · have hc : handleCreate st =
        ({ st with isCreating := true, formError := none, formSuccess := none },
          some (sanitizedPayload st.form st.tagsInput)) := by
      simp only [handleCreate, if_neg h]
    rw [hc]
    push_neg at h
    exact ⟨by simp [h.1, h.2.1, h.2.2.1, h.2.2.2], fun hcontra => absurd hcontra (by tauto)⟩

/-- C9 witness: on the pristine initial form the request is rejected with
the exact error message. -/
theorem create_requires_fields_witness :
    (handleCreate stEmpty).2 = none ∧
    (handleCreate stEmpty).1.formError = some requiredFieldsMsg := by
  have h := (create_requires_fields stEmpty).2 (Or.inl (by decide))
  exact ⟨h.1, h.2.2.2.2.2⟩

/-- C5 counterexample: a failed test whose error message is the empty
string is not stored verbatim — handleTest stores the fallback text
instead, so the claim that the message is always stored verbatim fails at
this input. -/
theorem test_error_fallback_counterexample :
    lookupAssoc ['e'] (handleTestErr ['e'] [] initialActionState).errors
        = some unableToTestMsg ∧
    lookupAssoc ['e'] (handleTestErr ['e'] [] initialActionState).errors
        ≠ some ([] : JStr) := by
  decide

/-- C5 amended: a failed validate presents exactly the zeroed summary with
the error message verbatim and no collected_at; a failed test of a stored
endpoint stores the error message verbatim when it is non-empty and the
fallback text when it is empty, and touches the error and
summary entries of no other endpoint. -/
theorem error_surfacing_amended :
    (∀ e : JStr, handleValidateResult (Except.error e) =
      { reachable := false
        host_count := 0
        virtual_machine_count := 0
        datastore_count := 0
        network_count := 0
        message := some e
        collected_at := none }) ∧
    (∀ (epId e : JStr) (st : EndpointActionState), e ≠ [] →
      lookupAssoc epId (handleTestErr epId e st).errors = some e) ∧
    (∀ (epId : JStr) (st : EndpointActionState),
      lookupAssoc epId (handleTestErr epId [] st).errors = some unableToTestMsg) ∧
    (∀ (epId e other : JStr) (st : EndpointActionState), other ≠ epId →
      lookupAssoc other (handleTestErr epId e st).errors
          = lookupAssoc other st.errors ∧
      (handleTestErr epId e st).summaries = st.summaries) := by
  refine ⟨fun e => rfl, ?_, ?_, ?_⟩
  · intro epId e st he
    simp [handleTestErr, if_neg he, lookupAssoc_mapSet_self]
  · intro epId st
    simp [handleTestErr, lookupAssoc_mapSet_self]
  · intro epId e other st ho
    refine ⟨?_, rfl⟩
    simp only [handleTestErr]
    rw [lookupAssoc_mapSet_other _ _ _ _ ho, lookupAssoc_mapSet_other _ _ _ _ ho]

/-- C5 witness: a non-empty test error message is stored verbatim for that
endpoint. -/
theorem error_surfacing_amended_witness :
    lookupAssoc ['x'] (handleTestErr ['x'] ['m'] initialActionState).errors
        = some ['m'] :=
  error_surfacing_amended.2.1 ['x'] ['m'] initialActionState (by decide)

/-- C2: an update that omits the secret leaves it untouched — an edit form
whose password is absent or whitespace-only yields a PATCH payload with no
password key, and applying a payload without a password key leaves the
stored encrypted secret and has_credentials unchanged. -/
theorem update_omits_secret :
    ∀ (editForm : UpdateInventoryEndpointPayload) (tagsInput : JStr)
      (encrypt : JStr → JStr) (ep : StoredEndpoint),
      (editForm.password = none ∨
        ∃ p, editForm.password = some p ∧ trimChars p = []) →
      ep.record.has_credentials = ep.secret.isSome →
      (buildUpdatePayload editForm tagsInput).password = none ∧
      (applyEndpointUpdate encrypt ep (buildUpdatePayload editForm tagsInput)).secret
          = ep.secret ∧
      (applyEndpointUpdate encrypt ep
          (buildUpdatePayload editForm tagsInput)).record.has_credentials
          = ep.record.has_credentials := by
  intro f t encrypt ep hpw hc
  have hnone : (buildUpdatePayload f t).password = none := by
    rcases hpw with h | ⟨p, hp, htr⟩
    · cases hd : f.description <;> simp [buildUpdatePayload, hd, h]
    · cases hd : f.description <;> simp [buildUpdatePayload, hd, hp, htr]
  refine ⟨hnone, ?_, ?_⟩
  · simp [applyEndpointUpdate, hnone]
  · simp [applyEndpointUpdate, hnone, hc]

/-- C2 witness: the untouched edit form for the stored fixture endpoint
(password field left blank) produces a payload without a password key and
leaves the stored secret in place. -/
theorem update_omits_secret_witness :
    (buildUpdatePayload (openEditForm endpointAB) []).password = none ∧
    (applyEndpointUpdate id storedAB
        (buildUpdatePayload (openEditForm endpointAB) [])).secret = some ['s'] := by
  have h := update_omits_secret (openEditForm endpointAB) [] id storedAB
    (Or.inr ⟨[], rfl, rfl⟩) rfl
  exact ⟨h.1, h.2.1⟩

/-- C4 counterexample: a host whose core count is known and positive but
whose CPU usage counter is a known zero gets a null percentage, not the
used-over-denominator value 0 the claim requires. -/
theorem percent_zero_usage_counterexample :
    hostCpuIdle.cpu_cores = some 4 ∧
    hostCpuIdle.cpu_usage_mhz = some 0 ∧
    calculateCpuPercent hostCpuIdle = none ∧
    calculateCpuPercent hostCpuIdle ≠
      some (hostCpuIdle.cpu_usage_mhz.getD 0 / hostCpuIdle.cpu_cores.getD 0 * 100) := by
  decide

/-- C4 amended: derived percentages are null when the denominator is zero,
negative or unknown, and also when the usage numerator is zero or unknown
(datastore usage instead treats an unknown free counter as zero);
otherwise they equal used over denominator times 100, the CPU denominator
being cpu_cores times 2500 MHz; every displayed percentage value is
clamped to the range 0 to 100. -/
theorem derived_percent_amended :
    (∀ d : InventoryDatastore,
      ((d.capacity_gb = none ∨ d.capacity_gb.getD 0 ≤ 0) →
        calculateDatastorePercent d = none) ∧
      ∀ c, d.capacity_gb = some c → 0 < c →
        calculateDatastorePercent d =
          some (max 0 (c - d.free_gb.getD 0) / c * 100)) ∧
    (∀ h : InventoryHost,
      ((h.cpu_cores = none ∨ h.cpu_cores.getD 0 ≤ 0 ∨ h.cpu_usage_mhz = none ∨
          h.cpu_usage_mhz = some 0) → calculateCpuPercent h = none) ∧
      ∀ c u, h.cpu_cores = some c → 0 < c → h.cpu_usage_mhz = some u → u ≠ 0 →
        calculateCpuPercent h = some (u / (c * 2500) * 100)) ∧
    (∀ h : InventoryHost,
      ((h.memory_total_mb = none ∨ h.memory_total_mb.getD 0 ≤ 0 ∨
          h.memory_usage_mb = none ∨ h.memory_usage_mb = some 0) →
        calculateMemoryPercent h = none) ∧
      ∀ mt mu, h.memory_total_mb = some mt → 0 < mt → h.memory_usage_mb = some mu →
        mu ≠ 0 → calculateMemoryPercent h = some (mu / mt * 100)) ∧
    (∀ (q : ℚ) (n : ℤ), displayedPercentValue (some q) = some n →
      0 ≤ n ∧ n ≤ 100) := by
  refine ⟨fun d => ⟨?_, ?_⟩, fun h => ⟨?_, ?_⟩, fun h => ⟨?_, ?_⟩, ?_⟩
  · rintro (hcap | hle)
    · simp [calculateDatastorePercent, jsFalsyNum, hcap]
    · rcases hcap : d.capacity_gb with _ | c
      · simp [calculateDatastorePercent, jsFalsyNum, hcap]
      · rw [hcap] at hle
        simp only [Option.getD_some] at hle
        simp [calculateDatastorePercent, jsFalsyNum, hcap, hle]
  · intro c hcap hpos
    have hne : ¬ c = 0 := ne_of_gt hpos
    have hnle : ¬ c ≤ 0 := not_le.mpr hpos
    simp [calculateDatastorePercent, jsFalsyNum, hcap, hne, hnle]
  · rintro (hc | hle | hu | hu0)
    · simp [calculateCpuPercent, jsFalsyNum, hc]
    · rcases hc : h.cpu_cores with _ | c
      · simp [calculateCpuPercent, jsFalsyNum, hc]
      · rw [hc] at hle
        simp only [Option.getD_some] at hle
        simp [calculateCpuPercent, jsFalsyNum, hc, hle]
    · simp [calculateCpuPercent, jsFalsyNum, hu]
    · simp [calculateCpuPercent, jsFalsyNum, hu0]
  · intro c u hc hpos hu hu0
    have hne : ¬ c = 0 := ne_of_gt hpos
    have hnle : ¬ c ≤ 0 := not_le.mpr hpos
    simp [calculateCpuPercent, jsFalsyNum, hc, hu, hne, hnle, hu0]
  · rintro (hm | hle | hu | hu0)
    · simp [calculateMemoryPercent, jsFalsyNum, hm]
    · rcases hm : h.memory_total_mb with _ | mt
      · simp [calculateMemoryPercent, jsFalsyNum, hm]
      · rw [hm] at hle
        simp only [Option.getD_some] at hle
        simp [calculateMemoryPercent, jsFalsyNum, hm, hle]
    · simp [calculateMemoryPercent, jsFalsyNum, hu]
    · simp [calculateMemoryPercent, jsFalsyNum, hu0]
  · intro mt mu hm hpos hu hu0
    have hne : ¬ mt = 0 := ne_of_gt hpos
    have hnle : ¬ mt ≤ 0 := not_le.mpr hpos
    simp [calculateMemoryPercent, jsFalsyNum, hm, hu, hne, hnle, hu0]
  · intro q n hq
    simp only [displayedPercentValue, Option.some.injEq] at hq
    subst hq
    constructor
    · exact le_min (by norm_num) (le_max_left 0 (jsRound q))
    · exact min_le_left 100 (max 0 (jsRound q))

/-- C4 witness for the amended claim: the quarter-full datastore shows 25
percent and the busy host 10 percent. -/
theorem derived_percent_amended_witness :
    calculateDatastorePercent datastoreQuarter = some 25 ∧
    calculateCpuPercent hostBusy = some 10 := by
  constructor
  · have h := (derived_percent_amended.1 datastoreQuarter).2 100 rfl (by norm_num)
    rw [h]
    norm_num [datastoreQuarter]
  · have h := (derived_percent_amended.2.1 hostBusy).2 4 1000 rfl (by norm_num) rfl
      (by norm_num)
    rw [h]
    norm_num

theorem lookup_foldl_isSome {β : Type _}
    (f : List (JStr × JStr) → β → List (JStr × JStr))
    (hf : ∀ m b k, (lookupAssoc k m).isSome → (lookupAssoc k (f m b)).isSome)
    (l : List β) (m : List (JStr × JStr)) (k : JStr)
    (h : (lookupAssoc k m).isSome) : (lookupAssoc k (l.foldl f m)).isSome := by
  induction l generalizing m with
  | nil => exact h
  | cons b bs ih => exact ih (f m b) (hf m b k h)

theorem lookup_foldl_onset {β : Type _}
    (f : List (JStr × JStr) → β → List (JStr × JStr))
    (hf : ∀ m b k, (lookupAssoc k m).isSome → (lookupAssoc k (f m b)).isSome)
    (l : List β) (m : List (JStr × JStr)) (k : JStr) (b : β) (hb : b ∈ l)
    (hset : ∀ m, (lookupAssoc k (f m b)).isSome) :
    (lookupAssoc k (l.foldl f m)).isSome := by
  induction l generalizing m with
  | nil => cases hb
  | cons a l ih =>
    rcases List.mem_cons.mp hb with rfl | hb2
    · exact lookup_foldl_isSome f hf l (f m b) k (hset m)
    · exact ih (f m a) hb2

/-- C7: dangling host references are kept intact — a re-observed virtual
machine keeps the host reference carried by its own snapshot row verbatim
(host presence is never consulted, so the reference is never nulled while
the VM is observed and fresh), and the VM view resolves the host filter
entry from the host_id and host_name fields of the VM itself even when no matching host
row exists. -/
theorem dangling_host_reference :
    (∀ (now : ℕ) (prev : List VmRow) (snapshot : List RawVm)
        (row : VmRow) (raw : RawVm),
      row ∈ prev →
      snapshot.find? (fun r => r.natural_key == row.natural_key) = some raw →
      ({ row with
          host_id := raw.host_ref
          host_name := raw.host_ref_name
          last_seen_at := now } ∈ reconcileVms now prev snapshot) ∧
      ∀ grace : ℕ,
        vmIsStale now grace
          { row with
            host_id := raw.host_ref
            host_name := raw.host_ref_name
            last_seen_at := now } = false) ∧
    (∀ (hosts : List InventoryHost) (vms : List InventoryVirtualMachine)
        (vm : InventoryVirtualMachine) (hid hname : JStr),
      vm ∈ vms → vm.host_id = some hid → vm.host_name = some hname →
      hid ≠ [] → hname ≠ [] →
      (lookupAssoc hid (uniqueHosts hosts vms)).isSome) := by
  constructor
  · intro now prev snapshot row raw hrow hfind
    constructor
    · simp only [reconcileVms]
      refine List.mem_append_left _ ?_
      exact List.mem_map.mpr ⟨row, hrow, by rw [hfind]⟩
    · intro grace
      simp [vmIsStale, Nat.sub_self]
  · intro hosts vms vm hid hname hvm hhid hhname h1 h2
    simp only [uniqueHosts]
    refine lookup_foldl_onset _ ?_ vms _ hid vm hvm ?_
    · intro m w k hk
      cases hw1 : w.host_id with
      | none => simpa [hw1] using hk
      | some a =>
        cases hw2 : w.host_name with
        | none => simpa [hw1, hw2] using hk
        | some b =>
          simp only [hw1, hw2]
          by_cases hab : a = [] ∨ b = []
          · simpa [hab] using hk
          · simp only [if_neg hab]
            exact lookupAssoc_mapSet_isSome a k b m hk
    · intro m
      simp only [hhid, hhname]
      rw [if_neg (by tauto : ¬ (hid = [] ∨ hname = []))]
      simp [lookupAssoc_mapSet_self]

/-- C7 witness: the fixture VM re-observed with a host reference absent
from the host table keeps that reference, and its dangling host shows up
in the host filter options. -/
theorem dangling_host_reference_witness :
    ({ vmRow0 with
        host_id := rawVm0.host_ref
        host_name := rawVm0.host_ref_name
        last_seen_at := 5 } ∈ reconcileVms 5 [vmRow0] [rawVm0]) ∧
    (lookupAssoc ['h', '9'] (uniqueHosts [] [vmDangling])).isSome := by
  constructor
  · exact (dangling_host_reference.1 5 [vmRow0] [rawVm0] vmRow0 rawVm0
      (by decide) (by decide)).1
  · exact dangling_host_reference.2 [] [vmDangling] vmDangling
      ['h', '9'] ['g', 'o', 'n', 'e'] (by decide) rfl rfl (by decide) (by decide)

/-- C10: after every load that completes without a network error the ACI
page state satisfies 1 <= page <= max(1, ceil(total / page_size)); a
requested page beyond the last page reported by the server is reset to the
last page without storing the response items, and a zero total away from
page one resets to page one with an empty list. -/
theorem page_bound_invariant :
    ∀ (st : AciPageState) (summaryResponse : AciFabricSummary)
      (nodesResponse : AciFabricNodePage),
      1 ≤ st.page →
      st.page ≤ max 1 (ceilDiv st.total st.pageSize) →
      (1 ≤ (loadDataOk st summaryResponse nodesResponse).page ∧
        (loadDataOk st summaryResponse nodesResponse).page ≤
          max 1 (ceilDiv (loadDataOk st summaryResponse nodesResponse).total
            (loadDataOk st summaryResponse nodesResponse).pageSize)) ∧
      (loadDataOk st summaryResponse nodesResponse).page ≤
        max 1 (ceilDiv nodesResponse.total st.pageSize) ∧
      (0 < nodesResponse.total →
        lastPageFor nodesResponse.total st.pageSize < st.page →
        (loadDataOk st summaryResponse nodesResponse).nodes = st.nodes ∧
        (loadDataOk st summaryResponse nodesResponse).page =
          lastPageFor nodesResponse.total st.pageSize) ∧
      (nodesResponse.total = 0 → st.page ≠ 1 →
        (loadDataOk st summaryResponse nodesResponse).page = 1 ∧
        (loadDataOk st summaryResponse nodesResponse).nodes = []) := by
  intro st sr resp h1 h2
  simp only [loadDataOk]
  split_ifs with c1 c2
  · obtain ⟨ht, hlt⟩ := c1
    have hlt' : max 1 (ceilDiv resp.total st.pageSize) < st.page := by
      simpa only [lastPageFor, if_pos ht] using hlt
    refine ⟨⟨?_, ?_⟩, ?_, fun _ _ => ⟨rfl, rfl⟩, fun h0 _ => absurd h0 (by omega)⟩
    · show 1 ≤ lastPageFor resp.total st.pageSize
      simp only [lastPageFor, if_pos ht]
      omega
    · show lastPageFor resp.total st.pageSize ≤ max 1 (ceilDiv st.total st.pageSize)
      simp only [lastPageFor, if_pos ht]
      omega
    · show lastPageFor resp.total st.pageSize ≤ max 1 (ceilDiv resp.total st.pageSize)
      simp only [lastPageFor, if_pos ht]
      omega
  · obtain ⟨h0, hne⟩ := c2
    refine ⟨⟨?_, ?_⟩, ?_, fun ht _ => absurd ht (by omega), fun _ _ => ⟨rfl, rfl⟩⟩
    · exact le_refl 1
    · show (1 : ℕ) ≤ max 1 (ceilDiv 0 st.pageSize)
      omega
    · show (1 : ℕ) ≤ max 1 (ceilDiv resp.total st.pageSize)
      omega
  · have hc1 : 0 < resp.total → st.page ≤ lastPageFor resp.total st.pageSize := by
      intro ht
      rcases not_and_or.mp c1 with h | h
      · exact absurd ht h
      · omega
    have hc2 : resp.total = 0 → st.page = 1 := by
      intro h0
      rcases not_and_or.mp c2 with h | h
      · exact absurd h0 h
      · simpa using h
    have hb : st.page ≤ max 1 (ceilDiv resp.total st.pageSize) := by
      by_cases ht : 0 < resp.total
      · have := hc1 ht
        simp only [lastPageFor, if_pos ht] at this
        omega
      · have h0 : resp.total = 0 := by omega
        have := hc2 h0
        omega
    refine ⟨⟨h1, ?_⟩, ?_, fun ht hlt => absurd hlt (not_lt.mpr (hc1 ht)),
      fun h0 hp => absurd (hc2 h0) hp⟩
    · show st.page ≤ max 1 (ceilDiv resp.total st.pageSize)
      exact hb
    · exact hb

/-- C10 witness: loading the 235-node page-3 response at size 100 keeps
the page index within bounds. -/
theorem page_bound_invariant_witness :
    1 ≤ (loadDataOk stAci summary0 resp235).page ∧
    (loadDataOk stAci summary0 resp235).page ≤
      max 1 (ceilDiv (loadDataOk stAci summary0 resp235).total
        (loadDataOk stAci summary0 resp235).pageSize) :=
  (page_bound_invariant stAci summary0 resp235 (by decide) (by decide)).1

/-- C1: offset pagination of the fabric-node query — for every filtered
collection and every page p >= 1 of size s >= 1, the envelope returns as
items exactly the contiguous slice starting at offset (p-1)*s, total the
filtered count, has_prev exactly when p > 1 and has_next exactly when
p*s < N; in particular the 235-node inventory at page 3, size 100, yields
exactly nodes 201 through 235 with total 235, has_next false, has_prev
true. -/
theorem fabric_nodes_pagination :
    (∀ (filtered : List AciFabricNode) (p s : ℕ), 1 ≤ p → 1 ≤ s →
      (paginateFabricNodes filtered p s).total = filtered.length ∧
      (paginateFabricNodes filtered p s).has_prev = decide (1 < p) ∧
      (paginateFabricNodes filtered p s).has_next
          = decide (p * s < filtered.length) ∧
      (paginateFabricNodes filtered p s).items.length
          = min s (filtered.length - (p - 1) * s) ∧
      ∀ (i : ℕ) (hi : i < (paginateFabricNodes filtered p s).items.length),
        ∃ hj : (p - 1) * s + i < filtered.length,
          (paginateFabricNodes filtered p s).items.get ⟨i, hi⟩
            = filtered.get ⟨(p - 1) * s + i, hj⟩) ∧
    (paginateFabricNodes nodes235 3 100).items = nodes235.drop 200 ∧
    (paginateFabricNodes nodes235 3 100).items.length = 35 ∧
    (paginateFabricNodes nodes235 3 100).total = 235 ∧
    (paginateFabricNodes nodes235 3 100).has_next = false ∧
    (paginateFabricNodes nodes235 3 100).has_prev = true := by
  have hlen235 : nodes235.length = 235 := by simp [nodes235]
  have hdrop : (nodes235.drop 200).length = 35 := by
    rw [List.length_drop, hlen235]
  have hitems : (paginateFabricNodes nodes235 3 100).items = nodes235.drop 200 := by
    have h200 : (3 - 1) * 100 = 200 := by norm_num
    simp only [paginateFabricNodes, h200]
    exact List.take_of_length_le (by rw [hdrop]; norm_num)
  refine ⟨?_, hitems, ?_, ?_, ?_, ?_⟩
  · intro filtered p s hp hs
    refine ⟨rfl, rfl, rfl, ?_, ?_⟩
    · show ((filtered.drop ((p - 1) * s)).take s).length = _
      simp [List.length_take, List.length_drop]
    · intro i hi
      have hlen : ((filtered.drop ((p - 1) * s)).take s).length
          = min s (filtered.length - (p - 1) * s) := by
        simp [List.length_take, List.length_drop]
      have hi2 : i < min s (filtered.length - (p - 1) * s) := by
        exact hlen ▸ hi
      have hj : (p - 1) * s + i < filtered.length := by omega
      refine ⟨hj, ?_⟩
      simp only [List.get_eq_getElem, paginateFabricNodes]
      rw [List.getElem_take, List.getElem_drop]
  · rw [hitems]
    exact hdrop
  · simp only [paginateFabricNodes]
    exact hlen235
  · simp only [paginateFabricNodes]
    rw [hlen235]
    decide
  · simp only [paginateFabricNodes]
    decide

/-- C1 witness: the pagination envelope law applied at the 235-node
inventory, page 2, size 100, gives back the filtered count as total. -/
theorem fabric_nodes_pagination_witness :
    (paginateFabricNodes nodes235 2 100).total = 235 := by
  have h := (fabric_nodes_pagination.1 nodes235 2 100 (by decide) (by decide)).1
  rw [h]
  simp [nodes235]

/-- C6: tags round-trip — joining a well-formed tag list into the edit
input and re-parsing it gives back exactly the same list, so an edit that
leaves the tags field untouched submits exactly the original tag list, the
modelled update then keeps those tags, and a tag list of a and b survives
the round trip unchanged. -/
theorem tags_round_trip :
    (∀ ts : List JStr, (∀ t ∈ ts, t ≠ [] ∧ ',' ∉ t ∧ trimChars t = t) →
      parseTags (joinTags ts) = ts) ∧
    (∀ (encrypt : JStr → JStr) (ep : StoredEndpoint),
      (∀ t ∈ ep.record.tags, t ≠ [] ∧ ',' ∉ t ∧ trimChars t = t) →
      (buildUpdatePayload (openEditForm ep.record) (joinTags ep.record.tags)).tags
          = some ep.record.tags ∧
      (applyEndpointUpdate encrypt ep
          (buildUpdatePayload (openEditForm ep.record)
            (joinTags ep.record.tags))).record.tags
          = ep.record.tags) ∧
    parseTags (joinTags [['a'], ['b']]) = [['a'], ['b']] := by
  refine ⟨parseTags_joinTags, ?_, by decide⟩
  intro encrypt ep h
  have hp : (buildUpdatePayload (openEditForm ep.record)
      (joinTags ep.record.tags)).tags = some ep.record.tags := by
    simp only [buildUpdatePayload, openEditForm, parseTags_joinTags _ h]
    split <;> rfl
  exact ⟨hp, by simp [applyEndpointUpdate, hp]⟩

/-- C6 witness: the untouched edit flow on the fixture endpoint with tags
a and b submits exactly those tags. -/
theorem tags_round_trip_witness :
    (buildUpdatePayload (openEditForm endpointAB)
      (joinTags endpointAB.tags)).tags = some [['a'], ['b']] :=
  (tags_round_trip.2.1 id storedAB (by decide)).1
